import Mathlib

/-!
Shallow embedding of the HeinerL97/api resource server.

The embedded code is `src/app/routes.py` (Flask blueprint: in-memory store
`database`, lazy `get_resource`, CRUD handlers, pagination) and
`src/items.py` (FastAPI `simulate_error` dependency reading the `error`
query parameter).  Python dicts are modelled as association lists that keep
insertion order and unique keys; JSON numbers are modelled as integers
(no verified claim depends on non-integer numerics); Python exceptions that
escape a handler (TypeError / AttributeError / ZeroDivisionError, all fatal
500s) are modelled by explicit `crash` outcomes.
-/

namespace ApiModel

/-- A JSON value as produced by `request.get_json()`.  Objects are ordered
association lists with unique keys, mirroring Python dicts. -/
inductive Json where
  | null
  | bool (b : Bool)
  | num (n : Int)
  | str (s : String)
  | arr (elts : List Json)
  | obj (kvs : List (String × Json))

/-- Python truthiness of a JSON value (`if not g.json_data`). -/
def Json.truthy : Json → Bool
  | .null => false
  | .bool b => b
  | .num n => n != 0
  | .str s => s != ""
  | .arr elts => !elts.isEmpty
  | .obj kvs => !kvs.isEmpty

/-- Truthiness of an optional body: `None` (no JSON body) is falsy. -/
def truthyOpt : Option Json → Bool
  | none => false
  | some j => j.truthy

/-- Dict lookup `d[k]` / `k in d` on an association list. -/
def lookupA {κ β : Type} [DecidableEq κ] : List (κ × β) → κ → Option β
  | [], _ => none
  | (k, v) :: rest, key => if k = key then some v else lookupA rest key

/-- Dict assignment `d[k] = v`: replaces the value in place when the key is
present (Python keeps the key position), appends otherwise. -/
def setA {κ β : Type} [DecidableEq κ] : List (κ × β) → κ → β → List (κ × β)
  | [], key, v => [(key, v)]
  | (k, w) :: rest, key, v =>
      if k = key then (k, v) :: rest else (k, w) :: setA rest key v

/-- Dict deletion `del d[k]`: removes the entry with the given key. -/
def delA {κ β : Type} [DecidableEq κ] : List (κ × β) → κ → List (κ × β)
  | [], _ => []
  | (k, w) :: rest, key => if k = key then rest else (k, w) :: delA rest key

/-- Python `base.update(upd)` on dicts: sets every key of `upd` in order. -/
def objUpdate (base upd : List (String × Json)) : List (String × Json) :=
  upd.foldl (fun acc kv => setA acc kv.1 kv.2) base

/-- One collection: `{'items': {...}, 'next_id': n}` from `routes.py`. -/
structure Collection where
  items : List (Nat × Json)
  next_id : Nat

/-- The process-wide `database` mapping collection names to collections. -/
abbrev Store := List (String × Collection)

/-- The fresh collection `{'items': {}, 'next_id': 1}`. -/
def emptyCollection : Collection := ⟨[], 1⟩

/-- Helper `get_resource` of routes.py: returns the existing collection or
registers and returns an empty one. -/
def get_resource (s : Store) (name : String) : Store × Collection :=
  match lookupA s name with
  | some c => (s, c)
  | none => (s ++ [(name, emptyCollection)], emptyCollection)

/-- Writing a handler's mutation of a collection back into the store
(Python mutates the dict in place through an alias). -/
def setStore (s : Store) (name : String) (c : Collection) : Store :=
  setA s name c

/-- Outcome of `create_item`.  `created` is the 201 response body;
`crash` is the unhandled TypeError / AttributeError (HTTP 500) raised by
`data.copy()` / `response[..] = ..` on a non-object payload. -/
inductive CreateResult where
  | badRequest400
  | created (resp : Json)
  | crash

/-- Handler `create_item` of routes.py, collection part.  Note the store
assignment and the `next_id` increment happen before the response copy, so
a truthy non-object body is persisted and then crashes the request. -/
def create_item (c : Collection) (body : Option Json) : Collection × CreateResult :=
  match body with
  | none => (c, .badRequest400)
  | some d =>
    if d.truthy then
      let id := c.next_id
      let c2 : Collection := ⟨setA c.items id d, c.next_id + 1⟩
      match d with
      | .obj kvs => (c2, .created (.obj (setA kvs "_id" (.num id))))
      | _ => (c2, .crash)
    else (c, .badRequest400)

/-- Outcome of `update_item` (PUT) and `patch_item` (PATCH). -/
inductive UpdResult where
  | badRequest400
  | ok (resp : Json)
  | notFound404
  | crash

/-- Handler `update_item` (PUT) of routes.py: full replacement. -/
def update_item (c : Collection) (id : Nat) (body : Option Json) :
    Collection × UpdResult :=
  match body with
  | none => (c, .badRequest400)
  | some d =>
    if d.truthy then
      match lookupA c.items id with
      | some _ =>
        let c2 : Collection := ⟨setA c.items id d, c.next_id⟩
        match d with
        | .obj kvs => (c2, .ok (.obj (setA kvs "_id" (.num id))))
        | _ => (c2, .crash)
      | none => (c, .notFound404)
    else (c, .badRequest400)

/-- Handler `patch_item` (PATCH) of routes.py: shallow merge via
`dict.update`.  When the stored payload or the body is not an object,
Python raises (AttributeError on a non-dict stored value, TypeError /
ValueError on a non-mapping argument); no verified claim depends on the
payload content in those cases and the id structure is unchanged either
way, so they are modelled as `crash` with the collection unchanged. -/
def patch_item (c : Collection) (id : Nat) (body : Option Json) :
    Collection × UpdResult :=
  match body with
  | none => (c, .badRequest400)
  | some d =>
    if d.truthy then
      match lookupA c.items id with
      | some stored =>
        match stored, d with
        | .obj skvs, .obj dkvs =>
          let merged := objUpdate skvs dkvs
          (⟨setA c.items id (.obj merged), c.next_id⟩,
            .ok (.obj (setA merged "_id" (.num id))))
        | _, _ => (c, .crash)
      | none => (c, .notFound404)
    else (c, .badRequest400)

/-- Outcome of `delete_item`. -/
inductive DelResult where
  | deleted204
  | notFound404

/-- Handler `delete_item` of routes.py.  `next_id` is untouched. -/
def delete_item (c : Collection) (id : Nat) : Collection × DelResult :=
  match lookupA c.items id with
  | some _ => (⟨delA c.items id, c.next_id⟩, .deleted204)
  | none => (c, .notFound404)

/-- Outcome of `get_item`.  `crash` is the unhandled exception raised by
`.copy()` / item assignment when the stored payload is not an object. -/
inductive GetResult where
  | ok (resp : Json)
  | notFound404
  | crash

/-- Handler `get_item` of routes.py: returns a copy of the stored payload
with `_id` merged in. -/
def get_item (c : Collection) (id : Nat) : GetResult :=
  match lookupA c.items id with
  | some d =>
    match d with
    | .obj kvs => .ok (.obj (setA kvs "_id" (.num id)))
    | _ => .crash
  | none => .notFound404

/-- Python list slicing `l[a:b]` with int bounds: negative indices count
from the end of the list, then both bounds are clamped into `[0, len]`;
the result is the (possibly empty) run of elements with indices in
`[a, b)` after that normalisation.  Slicing never raises. -/
def pySlice {α : Type} (l : List α) (a b : Int) : List α :=
  let n : Int := l.length
  let a2 : Nat := min (if a < 0 then n + a else a).toNat l.length
  let b2 : Nat := min (if b < 0 then n + b else b).toNat l.length
  (l.drop a2).take (b2 - a2)

/-- Translation of `math.ceil(a / b)` for integer operands and `b ≠ 0`:
Python true division gives the exact rational `a / b` here, and
`⌈a / b⌉ = -⌊(-a) / b⌋ = -((-a).fdiv b)`. -/
def ceilDivInt (a b : Int) : Int := -((-a).fdiv b)

/-- The `meta` object of the paginated listing response. -/
structure PageMeta where
  total_items : Nat
  per_page : Int
  current_page : Int
  total_pages : Int

/-- Outcome of the listing handler `get_items`.  `badParams400` is the 400
for unparseable `page`/`limit`; `itemCrash` is the unhandled exception
while building `all_items` from a non-object stored payload;
`zeroDivCrash` is the ZeroDivisionError raised by
`math.ceil(total_items / limit)` when `limit = 0`. -/
inductive ListResult where
  | badParams400
  | itemCrash
  | zeroDivCrash
  | ok (data : List Json) (meta : PageMeta)

/-- Lines 171-188 of routes.py: metadata plus the page slice, applied to
the already-built `all_items` list.  `total_pages` is computed before the
slice, so `limit = 0` raises there. -/
def paginate (all : List Json) (page limit : Int) : ListResult :=
  if limit = 0 then .zeroDivCrash
  else
    let start := (page - 1) * limit
    .ok (pySlice all start (start + limit))
      ⟨all.length, limit, page, ceilDivInt all.length limit⟩

/-- `item = data.copy(); item['_id'] = item_id` for one stored entry;
`none` models the exception raised on a non-object payload. -/
def addId (id : Nat) (d : Json) : Option Json :=
  match d with
  | .obj kvs => some (.obj (setA kvs "_id" (.num id)))
  | _ => none

/-- The `all_items` loop of `get_items`, in stored (insertion) order. -/
def buildAll : List (Nat × Json) → Option (List Json)
  | [] => some []
  | (id, d) :: rest =>
    match addId id d, buildAll rest with
    | some x, some xs => some (x :: xs)
    | _, _ => none

/-- `get_items` after query-parameter parsing. -/
def get_items_core (c : Collection) (page limit : Int) : ListResult :=
  match buildAll c.items with
  | none => .itemCrash
  | some all => paginate all page limit

/-- Digits of a decimal numeral, most significant first; `none` when the
list is empty or contains a non-digit. -/
def digitsVal (cs : List Char) : Option Nat :=
  if cs.isEmpty then none
  else
    cs.foldl
      (fun acc c =>
        match acc with
        | none => none
        | some n => if c.isDigit then some (n * 10 + (c.toNat - 48)) else none)
      (some 0)

/-- Surrounding-whitespace stripping on the character list of a string. -/
def pyStrip (cs : List Char) : List Char :=
  ((cs.dropWhile Char.isWhitespace).reverse.dropWhile Char.isWhitespace).reverse

/-- Python `int(s)` on a query-parameter string: surrounding whitespace is
stripped, an optional single sign is allowed, then decimal digits; any
other shape raises ValueError (`none`).  Underscore digit separators and
non-ASCII digits accepted by CPython are not modelled; no verified claim
uses them. -/
def pyParseInt (s : String) : Option Int :=
  match pyStrip s.toList with
  | '+' :: rest => (digitsVal rest).map Int.ofNat
  | '-' :: rest => (digitsVal rest).map (fun n => -(n : Int))
  | l => (digitsVal l).map Int.ofNat

/-- `int(request.args.get(key, default))`: the int default is used when
the parameter is absent, otherwise the string is parsed. -/
def parseArg (o : Option String) (d : Int) : Option Int :=
  match o with
  | none => some d
  | some s => pyParseInt s

/-- Handler `get_items` of routes.py: parse `page`/`limit` (400 on
failure), build `all_items`, paginate. -/
def get_items (c : Collection) (pageArg limitArg : Option String) : ListResult :=
  match parseArg pageArg 1, parseArg limitArg 20 with
  | some p, some l => get_items_core c p l
  | _, _ => .badParams400

/-- Handler `list_resources` of routes.py: the collection names, in
registration order; the store is not touched. -/
def list_resources (s : Store) : Store × List String :=
  (s, s.map Prod.fst)

/-- `POST /<name>` at store level: lazy `get_resource`, then `create_item`,
with the mutated collection written back under `name`. -/
def createReq (s : Store) (name : String) (body : Option Json) :
    Store × CreateResult :=
  let p := get_resource s name
  let r := create_item p.2 body
  (setStore p.1 name r.1, r.2)

/-- `GET /<name>/<id>` at store level: reads only, but `get_resource` may
register an empty collection. -/
def getItemReq (s : Store) (name : String) (id : Nat) : Store × GetResult :=
  let p := get_resource s name
  (p.1, get_item p.2 id)

/-- `GET /<name>` at store level. -/
def getItemsReq (s : Store) (name : String) (pageArg limitArg : Option String) :
    Store × ListResult :=
  let p := get_resource s name
  (p.1, get_items p.2 pageArg limitArg)

/-- `PUT /<name>/<id>` at store level. -/
def updateReq (s : Store) (name : String) (id : Nat) (body : Option Json) :
    Store × UpdResult :=
  let p := get_resource s name
  let r := update_item p.2 id body
  (setStore p.1 name r.1, r.2)

/-- `PATCH /<name>/<id>` at store level. -/
def patchReq (s : Store) (name : String) (id : Nat) (body : Option Json) :
    Store × UpdResult :=
  let p := get_resource s name
  let r := patch_item p.2 id body
  (setStore p.1 name r.1, r.2)

/-- `DELETE /<name>/<id>` at store level. -/
def deleteReq (s : Store) (name : String) (id : Nat) : Store × DelResult :=
  let p := get_resource s name
  let r := delete_item p.2 id
  (setStore p.1 name r.1, r.2)

/-- Outcome of the `simulate_error` dependency of items.py.
`sleepTimeout` records the `asyncio.sleep` duration before the 504. -/
inductive SimResult where
  | proceed
  | sleepTimeout (units : Int) (detail : String)
  | httpError (status : Int) (detail : String)
  | invalid400 (detail : String)
deriving DecidableEq

/-- The status-to-phrase table of items.py `simulate_error` (the
query-parameter simulator).  It has nine entries; 410 and 415 are absent. -/
def error_messages (code : Int) : Option String :=
  lookupA
    [((400 : Int), "Bad Request"), (401, "Unauthorized"), (403, "Forbidden"),
     (404, "Not Found"), (422, "Unprocessable Entity"),
     (500, "Internal Server Error"), (502, "Bad Gateway"),
     (503, "Service Unavailable"), (504, "Gateway Timeout")]
    code

/-- Dependency `simulate_error` of items.py.  `none` means the `error`
query parameter is absent.  Note `if not error_code: return` also lets an
empty-string parameter through. -/
def simulate_error (errParam : Option String) : SimResult :=
  match errParam with
  | none => .proceed
  | some s =>
    if s = "" then .proceed
    else if s = "timeout" then
      .sleepTimeout 10 "Timeout: Request took too long"
    else
      match pyParseInt s with
      | some code =>
        .httpError code
          (toString code ++ " " ++ ((error_messages code).getD "Unknown Error"))
      | none =>
        .invalid400
          "Invalid \x27error\x27 parameter. Must be an integer or \x27timeout\x27."

/-- A request outcome for a dependency-guarded endpoint. -/
inductive ReqResult where
  | sim (r : SimResult)
  | handled (r : CreateResult)

/-- A create endpoint guarded by `simulate_error`, mirroring the FastAPI
`Depends(simulate_error)` ordering of items.py: the simulator runs and, if
it aborts, the handler (and hence the store) is never touched. -/
def create_with_sim (errParam : Option String) (s : Store) (name : String)
    (body : Option Json) : Store × ReqResult :=
  match simulate_error errParam with
  | .proceed =>
    let r := createReq s name body
    (r.1, .handled r.2)
  | r => (s, .sim r)

/-- Modelled from the spec: the body-embedded timeout control directive of
the request preprocessor (spec section 4.4 step 3) is not implemented by
any file under src/ — `preprocess_json_body` in routes.py only parses the
JSON body — so it is modelled here from the spec's words.  Checks, for a
parsed body, a top-level field `description` equal to `"timeout"` and a
nested `control` object; yields the integer `control.timeout` when
present, a 400 marker when `control.timeout` exists but is not an
integer, and no directive otherwise. -/
inductive DirectiveResult where
  | noDirective
  | sleep504 (units : Int)
  | bad400

/-- Modelled from the spec: directive detection on one parsed body. -/
def timeout_directive (j : Json) : DirectiveResult :=
  match j with
  | .obj kvs =>
    match lookupA kvs "description" with
    | some (.str s) =>
      if s = "timeout" then
        match lookupA kvs "control" with
        | some (.obj ckvs) =>
          match lookupA ckvs "timeout" with
          | some (.num t) => .sleep504 t
          | some _ => .bad400
          | none => .noDirective
        | _ => .noDirective
      else .noDirective
    | _ => .noDirective
  | _ => .noDirective

/-- Outcome of the write-method preprocessing stage.  An aborting timeout
directive removes the `control` key from the body, suspends for the given
number of time units and fails with 504 carrying the elapsed duration. -/
inductive PreResult where
  | goOn (body : Option Json)
  | abortTimeout (elapsedUnits : Int) (strippedBody : Json)
  | abortBad400

/-- Modelled from the spec: preprocessing stage 3, applied to write
requests (create / replace) only. -/
def preprocess_write (body : Option Json) : PreResult :=
  match body with
  | some (.obj kvs) =>
    match timeout_directive (.obj kvs) with
    | .noDirective => .goOn body
    | .sleep504 t => .abortTimeout t (.obj (delA kvs "control"))
    | .bad400 => .abortBad400
  | _ => .goOn body

/-- Outcome of a write endpoint behind the preprocessing pipeline. -/
inductive PreReqResult where
  | gatewayTimeout504 (elapsedUnits : Int)
  | badDirective400
  | handledCreate (r : CreateResult)
  | handledUpdate (r : UpdResult)

/-- Modelled from the spec: `POST /<name>` behind preprocessing stage 3.
On abort the handler never runs, so the store is untouched. -/
def create_with_pre (s : Store) (name : String) (body : Option Json) :
    Store × PreReqResult :=
  match preprocess_write body with
  | .abortTimeout t _ => (s, .gatewayTimeout504 t)
  | .abortBad400 => (s, .badDirective400)
  | .goOn b =>
    let r := createReq s name b
    (r.1, .handledCreate r.2)

/-- Modelled from the spec: `PUT /<name>/<id>` behind preprocessing
stage 3. -/
def replace_with_pre (s : Store) (name : String) (id : Nat)
    (body : Option Json) : Store × PreReqResult :=
  match preprocess_write body with
  | .abortTimeout t _ => (s, .gatewayTimeout504 t)
  | .abortBad400 => (s, .badDirective400)
  | .goOn b =>
    let r := updateReq s name id b
    (r.1, .handledUpdate r.2)

/-- One mutating operation on a collection, for reachability arguments. -/
inductive Op where
  | createOp (body : Option Json)
  | replaceOp (id : Nat) (body : Option Json)
  | patchOp (id : Nat) (body : Option Json)
  | deleteOp (id : Nat)

/-- The state part of one handler invocation. -/
def applyOp (c : Collection) : Op → Collection
  | .createOp b => (create_item c b).1
  | .replaceOp id b => (update_item c id b).1
  | .patchOp id b => (patch_item c id b).1
  | .deleteOp id => (delete_item c id).1

/-- A sequence of handler invocations on one collection. -/
def applyOps (c : Collection) (ops : List Op) : Collection :=
  ops.foldl applyOp c

/-- A concrete collection with 45 stored items, ids 1 to 45. -/
def c45 : Collection :=
  ⟨(List.range 45).map (fun i => (i + 1, Json.obj [("n", Json.num (i + 1))])), 46⟩

/-- The expected page 3 of `c45` under limit 20: items 41 to 45. -/
def page3 : List Json :=
  (List.range 5).map (fun i =>
    Json.obj [("n", Json.num (i + 41)), ("_id", Json.num (i + 41))])

/-! Association-list lemmas shared by the claim proofs. -/

theorem lookupA_setA_self {κ β : Type} [DecidableEq κ]
    (l : List (κ × β)) (k : κ) (v : β) : lookupA (setA l k v) k = some v := by
  induction l with
  | nil => simp [setA, lookupA]
  | cons hd tl ih =>
    by_cases h : hd.1 = k
    · simp [setA, lookupA, h]
    · simpa [setA, lookupA, h] using ih

theorem lookupA_setA_ne {κ β : Type} [DecidableEq κ]
    (l : List (κ × β)) (k k2 : κ) (v : β) (h : k2 ≠ k) :
    lookupA (setA l k v) k2 = lookupA l k2 := by
  induction l with
  | nil => simp [setA, lookupA, Ne.symm h]
  | cons hd tl ih =>
    obtain ⟨a, b⟩ := hd
    by_cases hk : a = k
    · subst hk
      simp [setA, lookupA, Ne.symm h]
    · by_cases hk2 : a = k2
      · simp [setA, lookupA, hk, hk2, h]
      · simp [setA, lookupA, hk, hk2, ih]

theorem mem_setA {κ β : Type} [DecidableEq κ]
    {l : List (κ × β)} {k : κ} {v : β} {p : κ × β} (hp : p ∈ setA l k v) :
    p.1 = k ∨ p ∈ l := by
  induction l with
  | nil =>
    simp [setA] at hp
    simp [hp]
  | cons hd tl ih =>
    by_cases hk : hd.1 = k
    · simp [setA, hk] at hp
      rcases hp with h1 | h2
      · exact Or.inl (by simp [h1])
      · exact Or.inr (List.mem_cons_of_mem _ h2)
    · simp [setA, hk] at hp
      rcases hp with h1 | h2
      · exact Or.inr (by simp [h1])
      · rcases ih h2 with h3 | h4
        · exact Or.inl h3
        · exact Or.inr (List.mem_cons_of_mem _ h4)

theorem mem_delA {κ β : Type} [DecidableEq κ]
    {l : List (κ × β)} {k : κ} {p : κ × β} (hp : p ∈ delA l k) : p ∈ l := by
  induction l with
  | nil => simp [delA] at hp
  | cons hd tl ih =>
    by_cases hk : hd.1 = k
    · simp [delA, hk] at hp
      exact List.mem_cons_of_mem _ hp
    · simp [delA, hk] at hp
      rcases hp with h1 | h2
      · exact by simp [h1]
      · exact List.mem_cons_of_mem _ (ih h2)

theorem lookupA_mem {κ β : Type} [DecidableEq κ]
    {l : List (κ × β)} {k : κ} {v : β} (h : lookupA l k = some v) :
    (k, v) ∈ l := by
  induction l with
  | nil => simp [lookupA] at h
  | cons hd tl ih =>
    obtain ⟨a, b⟩ := hd
    by_cases hk : a = k
    · subst hk
      simp [lookupA] at h
      subst h
      exact List.mem_cons_self _ _
    · simp [lookupA, hk] at h
      exact List.mem_cons_of_mem _ (ih h)

theorem lookupA_eq_none_of_not_mem {κ β : Type} [DecidableEq κ]
    {l : List (κ × β)} {k : κ} (h : k ∉ l.map Prod.fst) :
    lookupA l k = none := by
  induction l with
  | nil => simp [lookupA]
  | cons hd tl ih =>
    obtain ⟨a, b⟩ := hd
    have h1 : ¬ a = k := by
      intro hc
      exact h (by simp [hc])
    have h2 : k ∉ tl.map Prod.fst := by
      intro hc
      exact h (by simp [hc])
    simp [lookupA, h1, ih h2]

theorem lookupA_append_single_self {κ β : Type} [DecidableEq κ]
    {l : List (κ × β)} {k : κ} (v : β) (h : lookupA l k = none) :
    lookupA (l ++ [(k, v)]) k = some v := by
  induction l with
  | nil => simp [lookupA]
  | cons hd tl ih =>
    by_cases hk : hd.1 = k
    · simp [lookupA, hk] at h
    · simp [lookupA, hk] at h ⊢
      exact ih h

theorem lookupA_append_single_ne {κ β : Type} [DecidableEq κ]
    (l : List (κ × β)) (k k2 : κ) (v : β) (h : k2 ≠ k) :
    lookupA (l ++ [(k, v)]) k2 = lookupA l k2 := by
  induction l with
  | nil => simp [lookupA, Ne.symm h]
  | cons hd tl ih =>
    obtain ⟨a, b⟩ := hd
    by_cases hk : a = k2
    · simp [lookupA, hk]
    · simp [lookupA, hk, ih]

theorem lookupA_objUpdate_of_none {s p : List (String × Json)} {k : String}
    (h : lookupA p k = none) :
    lookupA (objUpdate s p) k = lookupA s k := by
  induction p generalizing s with
  | nil => simp [objUpdate]
  | cons hd tl ih =>
    by_cases hk : hd.1 = k
    · simp [lookupA, hk] at h
    · simp [lookupA, hk] at h
      have step : objUpdate s (hd :: tl) = objUpdate (setA s hd.1 hd.2) tl := by
        simp [objUpdate]
      rw [step, ih h, lookupA_setA_ne _ _ _ _ (fun hc => hk hc.symm)]

theorem lookupA_delA_self_of_nodup {κ β : Type} [DecidableEq κ]
    {l : List (κ × β)} (hnd : (l.map Prod.fst).Nodup) (k : κ) :
    lookupA (delA l k) k = none := by
  induction l with
  | nil => simp [delA, lookupA]
  | cons hd tl ih =>
    obtain ⟨a, b⟩ := hd
    rw [List.map_cons, List.nodup_cons] at hnd
    by_cases hk : a = k
    · subst hk
      simp only [delA, if_pos rfl]
      exact lookupA_eq_none_of_not_mem hnd.1
    · simp [delA, lookupA, hk, ih hnd.2]

theorem truthy_obj_of_ne_nil {kvs : List (String × Json)} (h : kvs ≠ []) :
    (Json.obj kvs).truthy = true := by
  cases kvs with
  | nil => exact absurd rfl h
  | cons a t => rfl

theorem create_item_fst (c : Collection) (b : Option Json) :
    (create_item c b).1 = c ∨
    ∃ d, b = some d ∧
      (create_item c b).1 = ⟨setA c.items c.next_id d, c.next_id + 1⟩ := by
  rcases b with _ | d
  · exact Or.inl rfl
  · by_cases hd : d.truthy = true
    · exact Or.inr ⟨d, rfl, by cases d <;> simp [create_item, hd]⟩
    · exact Or.inl (by cases d <;> simp_all [create_item])

theorem create_item_next_id_of_truthy (c : Collection) (b : Option Json)
    (hb : truthyOpt b = true) : (create_item c b).1.next_id = c.next_id + 1 := by
  rcases b with _ | d
  · simp [truthyOpt] at hb
  · simp [truthyOpt] at hb
    cases d <;> simp [create_item, hb]

theorem update_item_fst (c : Collection) (id : Nat) (b : Option Json) :
    (update_item c id b).1 = c ∨
    ∃ d, lookupA c.items id ≠ none ∧
      (update_item c id b).1 = ⟨setA c.items id d, c.next_id⟩ := by
  rcases b with _ | d
  · exact Or.inl rfl
  · by_cases hd : d.truthy = true
    · rcases hl : lookupA c.items id with _ | stored
      · exact Or.inl (by cases d <;> simp [update_item, hd, hl])
      · exact Or.inr ⟨d, by simp [hl], by cases d <;> simp [update_item, hd, hl]⟩
    · exact Or.inl (by cases d <;> simp_all [update_item])

theorem patch_item_fst (c : Collection) (id : Nat) (b : Option Json) :
    (patch_item c id b).1 = c ∨
    ∃ j, lookupA c.items id ≠ none ∧
      (patch_item c id b).1 = ⟨setA c.items id j, c.next_id⟩ := by
  rcases b with _ | d
  · exact Or.inl rfl
  · by_cases hd : d.truthy = true
    · rcases hl : lookupA c.items id with _ | stored
      · exact Or.inl (by cases d <;> simp [patch_item, hd, hl])
      · rcases stored with _ | b2 | n2 | s2 | e2 | skvs
        · exact Or.inl (by cases d <;> simp [patch_item, hd, hl])
        · exact Or.inl (by cases d <;> simp [patch_item, hd, hl])
        · exact Or.inl (by cases d <;> simp [patch_item, hd, hl])
        · exact Or.inl (by cases d <;> simp [patch_item, hd, hl])
        · exact Or.inl (by cases d <;> simp [patch_item, hd, hl])
        · rcases d with _ | b3 | n3 | s3 | e3 | dkvs
          · exact Or.inl (by simp [patch_item, hd, hl])
          · exact Or.inl (by simp [patch_item, hd, hl])
          · exact Or.inl (by simp [patch_item, hd, hl])
          · exact Or.inl (by simp [patch_item, hd, hl])
          · exact Or.inl (by simp [patch_item, hd, hl])
          · exact Or.inr ⟨Json.obj (objUpdate skvs dkvs), by simp [hl],
              by simp [patch_item, hd, hl]⟩
    · exact Or.inl (by cases d <;> simp_all [patch_item])

theorem delete_item_fst (c : Collection) (id : Nat) :
    (delete_item c id).1 = c ∨
    (delete_item c id).1 = ⟨delA c.items id, c.next_id⟩ := by
  rcases hl : lookupA c.items id with _ | d
  · exact Or.inl (by simp [delete_item, hl])
  · exact Or.inr (by simp [delete_item, hl])

theorem applyOp_next_id_le (c : Collection) (op : Op) :
    c.next_id ≤ (applyOp c op).next_id := by
  cases op with
  | createOp b =>
    rcases create_item_fst c b with h | ⟨d, _, h⟩
    · simp [applyOp, h]
    · simp [applyOp, h]
  | replaceOp id b =>
    rcases update_item_fst c id b with h | ⟨d, _, h⟩
    · simp [applyOp, h]
    · simp [applyOp, h]
  | patchOp id b =>
    rcases patch_item_fst c id b with h | ⟨j, _, h⟩
    · simp [applyOp, h]
    · simp [applyOp, h]
  | deleteOp id =>
    rcases delete_item_fst c id with h | h
    · simp [applyOp, h]
    · simp [applyOp, h]

theorem applyOps_next_id_le (c : Collection) (ops : List Op) :
    c.next_id ≤ (applyOps c ops).next_id := by
  induction ops generalizing c with
  | nil => simp [applyOps]
  | cons op rest ih =>
    calc c.next_id ≤ (applyOp c op).next_id := applyOp_next_id_le c op
      _ ≤ (applyOps (applyOp c op) rest).next_id := ih (applyOp c op)
      _ = (applyOps c (op :: rest)).next_id := by simp [applyOps]

theorem inv_applyOp {c : Collection} (hc : ∀ p ∈ c.items, p.1 < c.next_id)
    (op : Op) : ∀ p ∈ (applyOp c op).items, p.1 < (applyOp c op).next_id := by
  cases op with
  | createOp b =>
    rcases create_item_fst c b with h | ⟨d, _, h⟩
    · simpa [applyOp, h] using hc
    · simp only [applyOp, h]
      intro p hp
      rcases mem_setA hp with h1 | h2
      · omega
      · exact Nat.lt_succ_of_lt (hc p h2)
  | replaceOp id b =>
    rcases update_item_fst c id b with h | ⟨d, hne, h⟩
    · simpa [applyOp, h] using hc
    · simp only [applyOp, h]
      intro p hp
      rcases mem_setA hp with h1 | h2
      · rcases hv : lookupA c.items id with _ | v
        · exact absurd hv hne
        · rw [h1]
          exact hc _ (lookupA_mem hv)
      · exact hc p h2
  | patchOp id b =>
    rcases patch_item_fst c id b with h | ⟨j, hne, h⟩
    · simpa [applyOp, h] using hc
    · simp only [applyOp, h]
      intro p hp
      rcases mem_setA hp with h1 | h2
      · rcases hv : lookupA c.items id with _ | v
        · exact absurd hv hne
        · rw [h1]
          exact hc _ (lookupA_mem hv)
      · exact hc p h2
  | deleteOp id =>
    rcases delete_item_fst c id with h | h
    · simpa [applyOp, h] using hc
    · simp only [applyOp, h]
      intro p hp
      exact hc p (mem_delA hp)

theorem inv_applyOps_of (ops : List Op) :
    ∀ (c : Collection), (∀ p ∈ c.items, p.1 < c.next_id) →
    ∀ p ∈ (applyOps c ops).items, p.1 < (applyOps c ops).next_id := by
  induction ops with
  | nil =>
    intro c hc
    simpa [applyOps] using hc
  | cons op rest ih =>
    intro c hc
    have h1 := inv_applyOp hc op
    have h2 := ih (applyOp c op) h1
    simpa [applyOps] using h2

theorem lookupA_objUpdate_of_some {s p : List (String × Json)} {k : String}
    {v : Json} (hnd : (p.map Prod.fst).Nodup) (h : lookupA p k = some v) :
    lookupA (objUpdate s p) k = some v := by
  induction p generalizing s with
  | nil => simp [lookupA] at h
  | cons hd tl ih =>
    obtain ⟨a, b⟩ := hd
    have step : objUpdate s ((a, b) :: tl) = objUpdate (setA s a b) tl := by
      simp [objUpdate]
    rw [List.map_cons, List.nodup_cons] at hnd
    by_cases hk : a = k
    · subst hk
      simp [lookupA] at h
      have htl : lookupA tl a = none := lookupA_eq_none_of_not_mem hnd.1
      rw [step, lookupA_objUpdate_of_none htl, lookupA_setA_self, h]
    · simp [lookupA, hk] at h
      rw [step]
      exact ih hnd.2 h

/-! Claim theorems. -/

/-- C1: for every store, collection name and non-empty JSON object payload
P, creating an item with P and then getting it by the assigned id returns
P augmented with the assigned id under the key `_id` (other keys are
looked up unchanged), whether the collection existed before or is lazily
created by the call. -/
theorem c1_create_then_get :
    ∀ (s : Store) (name : String) (kvs : List (String × Json)), kvs ≠ [] →
    (createReq s name (some (Json.obj kvs))).2
      = CreateResult.created
          (Json.obj (setA kvs "_id" (Json.num (get_resource s name).2.next_id))) ∧
    (getItemReq (createReq s name (some (Json.obj kvs))).1 name
        (get_resource s name).2.next_id).2
      = GetResult.ok
          (Json.obj (setA kvs "_id" (Json.num (get_resource s name).2.next_id))) ∧
    lookupA (setA kvs "_id" (Json.num (get_resource s name).2.next_id)) "_id"
      = some (Json.num (get_resource s name).2.next_id) ∧
    (∀ k, k ≠ "_id" →
      lookupA (setA kvs "_id" (Json.num (get_resource s name).2.next_id)) k
        = lookupA kvs k) := by
  intro s name kvs hne
  have htr := truthy_obj_of_ne_nil hne
  refine ⟨?_, ?_, lookupA_setA_self _ _ _, fun k hk => lookupA_setA_ne _ _ _ _ hk⟩
  · simp [createReq, create_item, htr]
  · simp [getItemReq, createReq, create_item, htr, get_resource, setStore,
      lookupA_setA_self, get_item]

/-- C1 witness: concrete round trip through a fresh collection. -/
theorem c1_create_then_get_witness :
    (createReq [] "widgets" (some (Json.obj [("a", Json.num 7)]))).2
      = CreateResult.created (Json.obj [("a", Json.num 7), ("_id", Json.num 1)]) ∧
    (getItemReq (createReq [] "widgets" (some (Json.obj [("a", Json.num 7)]))).1
        "widgets" 1).2
      = GetResult.ok (Json.obj [("a", Json.num 7), ("_id", Json.num 1)]) ∧
    lookupA [("a", Json.num 7), ("_id", Json.num 1)] "_id" = some (Json.num 1) ∧
    (∀ k, k ≠ "_id" →
      lookupA [("a", Json.num 7), ("_id", Json.num 1)] k
        = lookupA [("a", Json.num 7)] k) :=
  c1_create_then_get [] "widgets" [("a", Json.num 7)] (by simp)

/-- C2: in every collection state reachable from the empty collection by
create / replace / patch / delete, every stored id is strictly below
`next_id`; `next_id` never decreases under any operation sequence; and the
id a later create assigns (its `next_id` at that point) is strictly above
the id assigned by an earlier successful create, so ids never repeat even
after deletions. -/
theorem c2_id_invariants :
    (∀ (ops : List Op) (p : Nat × Json),
      p ∈ (applyOps emptyCollection ops).items →
      p.1 < (applyOps emptyCollection ops).next_id) ∧
    (∀ (c : Collection) (ops : List Op),
      c.next_id ≤ (applyOps c ops).next_id) ∧
    (∀ (c : Collection) (b : Option Json) (ops : List Op),
      truthyOpt b = true →
      c.next_id < (applyOps (applyOp c (Op.createOp b)) ops).next_id) := by
  refine ⟨?_, ?_, ?_⟩
  · intro ops p hp
    exact inv_applyOps_of ops emptyCollection (by simp [emptyCollection]) p hp
  · intro c ops
    exact applyOps_next_id_le c ops
  · intro c b ops hb
    have h1 : (applyOp c (Op.createOp b)).next_id = c.next_id + 1 := by
      simpa [applyOp] using create_item_next_id_of_truthy c b hb
    have h2 := applyOps_next_id_le (applyOp c (Op.createOp b)) ops
    omega

/-- C2 witness: after a create and a delete, the next assigned id is still
strictly above the first one. -/
theorem c2_id_invariants_witness :
    emptyCollection.next_id
      < (applyOps (applyOp emptyCollection
            (Op.createOp (some (Json.obj [("a", Json.num 1)]))))
          [Op.deleteOp 1]).next_id :=
  c2_id_invariants.2.2 emptyCollection (some (Json.obj [("a", Json.num 1)]))
    [Op.deleteOp 1] rfl

/-- C4 (amended): create fails with 400 exactly when the parsed payload is
absent or falsy (no JSON body, or an empty object / array / string, zero,
false, or null); for every non-empty JSON object payload it succeeds,
stores the payload unchanged under id = `next_id`, increments `next_id`,
and returns the stored payload plus its assigned id (the 201 response).
A truthy non-object payload is not rejected with 400: it is stored and
the request then crashes (see the counterexample). -/
theorem c4_create_validation :
    ∀ (c : Collection) (b : Option Json) (kvs : List (String × Json)),
    ((create_item c b).2 = CreateResult.badRequest400 ↔ truthyOpt b = false) ∧
    (b = some (Json.obj kvs) → kvs ≠ [] →
      (create_item c b).2
        = CreateResult.created (Json.obj (setA kvs "_id" (Json.num c.next_id))) ∧
      (create_item c b).1.next_id = c.next_id + 1 ∧
      lookupA (create_item c b).1.items c.next_id = some (Json.obj kvs)) := by
  intro c b kvs
  constructor
  · cases b with
    | none => simp [create_item, truthyOpt]
    | some d =>
      by_cases hd : d.truthy = true
      · cases d <;> simp [create_item, truthyOpt, hd]
      · simp [create_item, truthyOpt, hd]
  · intro hb hne
    subst hb
    have htr := truthy_obj_of_ne_nil hne
    exact ⟨by simp [create_item, htr], by simp [create_item, htr],
      by simp [create_item, htr, lookupA_setA_self]⟩

/-- C4 witness: a non-empty object body is stored and answered with 201. -/
theorem c4_create_validation_witness :
    (create_item emptyCollection (some (Json.obj [("a", Json.num 1)]))).2
      = CreateResult.created (Json.obj [("a", Json.num 1), ("_id", Json.num 1)]) ∧
    (create_item emptyCollection (some (Json.obj [("a", Json.num 1)]))).1.next_id = 2 ∧
    lookupA (create_item emptyCollection
        (some (Json.obj [("a", Json.num 1)]))).1.items 1
      = some (Json.obj [("a", Json.num 1)]) :=
  (c4_create_validation emptyCollection (some (Json.obj [("a", Json.num 1)]))
      [("a", Json.num 1)]).2 rfl (by simp)

/-- C4 counterexample: the payload `[1]` is a valid non-empty JSON value
that is not a JSON object, so the claim predicts a 400 validation
failure; the code instead stores it under id 1, increments `next_id`, and
the request crashes in the response-building step. -/
theorem c4_nonobject_counterexample :
    (create_item emptyCollection (some (Json.arr [Json.num 1]))).2
      = CreateResult.crash ∧
    lookupA (create_item emptyCollection
        (some (Json.arr [Json.num 1]))).1.items 1 = some (Json.arr [Json.num 1]) ∧
    (create_item emptyCollection (some (Json.arr [Json.num 1]))).1.next_id = 2 :=
  ⟨rfl, rfl, rfl⟩

/-- C5 (amended): for a stored object payload and a non-empty object
partial with distinct keys, patch shallow-merges the partial into the
stored payload — keys of the partial get the partial's values, all other
keys keep their stored values; for a non-empty object payload, replace
fully overwrites the stored payload, dropping keys not present in it;
with a non-empty body, both fail with 404 when the id is absent.  An
empty object body instead fails with 400 before the id check (see the
counterexample). -/
theorem c5_patch_replace :
    ∀ (c : Collection) (id id2 : Nat) (skvs pkvs nkvs : List (String × Json))
      (b : Option Json),
    (lookupA c.items id = some (Json.obj skvs) →
      (pkvs ≠ [] → (pkvs.map Prod.fst).Nodup →
        (patch_item c id (some (Json.obj pkvs))).2
          = UpdResult.ok
              (Json.obj (setA (objUpdate skvs pkvs) "_id" (Json.num id))) ∧
        lookupA (patch_item c id (some (Json.obj pkvs))).1.items id
          = some (Json.obj (objUpdate skvs pkvs)) ∧
        (∀ k, lookupA pkvs k = none →
          lookupA (objUpdate skvs pkvs) k = lookupA skvs k) ∧
        (∀ k v, lookupA pkvs k = some v →
          lookupA (objUpdate skvs pkvs) k = some v)) ∧
      (nkvs ≠ [] →
        (update_item c id (some (Json.obj nkvs))).2
          = UpdResult.ok (Json.obj (setA nkvs "_id" (Json.num id))) ∧
        lookupA (update_item c id (some (Json.obj nkvs))).1.items id
          = some (Json.obj nkvs))) ∧
    (lookupA c.items id2 = none → truthyOpt b = true →
      (patch_item c id2 b).2 = UpdResult.notFound404 ∧
      (update_item c id2 b).2 = UpdResult.notFound404) := by
  intro c id id2 skvs pkvs nkvs b
  constructor
  · intro hstored
    constructor
    · intro hne hnd
      have htr := truthy_obj_of_ne_nil hne
      refine ⟨?_, ?_, ?_, ?_⟩
      · simp [patch_item, htr, hstored]
      · simp [patch_item, htr, hstored, lookupA_setA_self]
      · intro k hk
        exact lookupA_objUpdate_of_none hk
      · intro k v hk
        exact lookupA_objUpdate_of_some hnd hk
    · intro hne
      have htr := truthy_obj_of_ne_nil hne
      exact ⟨by simp [update_item, htr, hstored],
        by simp [update_item, htr, hstored, lookupA_setA_self]⟩
  · intro habs hb
    rcases b with _ | d
    · simp [truthyOpt] at hb
    · simp [truthyOpt] at hb
      exact ⟨by simp [patch_item, hb, habs], by simp [update_item, hb, habs]⟩

/-- C5 witness: patch overwrites only the patched key, replace drops the
unmentioned key, and a missing id with a non-empty body gives 404. -/
theorem c5_patch_replace_witness :
    ((patch_item ⟨[(1, Json.obj [("a", Json.num 1), ("b", Json.num 2)])], 2⟩ 1
        (some (Json.obj [("b", Json.num 9)]))).2
      = UpdResult.ok (Json.obj
          [("a", Json.num 1), ("b", Json.num 9), ("_id", Json.num 1)]) ∧
    lookupA (patch_item ⟨[(1, Json.obj [("a", Json.num 1), ("b", Json.num 2)])], 2⟩ 1
        (some (Json.obj [("b", Json.num 9)]))).1.items 1
      = some (Json.obj [("a", Json.num 1), ("b", Json.num 9)]) ∧
    (∀ k, lookupA [("b", Json.num 9)] k = none →
      lookupA (objUpdate [("a", Json.num 1), ("b", Json.num 2)] [("b", Json.num 9)]) k
        = lookupA [("a", Json.num 1), ("b", Json.num 2)] k) ∧
    (∀ k v, lookupA [("b", Json.num 9)] k = some v →
      lookupA (objUpdate [("a", Json.num 1), ("b", Json.num 2)] [("b", Json.num 9)]) k
        = some v)) ∧
    ((update_item ⟨[(1, Json.obj [("a", Json.num 1), ("b", Json.num 2)])], 2⟩ 1
        (some (Json.obj [("z", Json.num 3)]))).2
      = UpdResult.ok (Json.obj [("z", Json.num 3), ("_id", Json.num 1)]) ∧
    lookupA (update_item ⟨[(1, Json.obj [("a", Json.num 1), ("b", Json.num 2)])], 2⟩ 1
        (some (Json.obj [("z", Json.num 3)]))).1.items 1
      = some (Json.obj [("z", Json.num 3)])) ∧
    ((patch_item ⟨[(1, Json.obj [("a", Json.num 1), ("b", Json.num 2)])], 2⟩ 5
        (some (Json.obj [("x", Json.num 1)]))).2 = UpdResult.notFound404 ∧
    (update_item ⟨[(1, Json.obj [("a", Json.num 1), ("b", Json.num 2)])], 2⟩ 5
        (some (Json.obj [("x", Json.num 1)]))).2 = UpdResult.notFound404) := by
  have h := c5_patch_replace ⟨[(1, Json.obj [("a", Json.num 1), ("b", Json.num 2)])], 2⟩
    1 5 [("a", Json.num 1), ("b", Json.num 2)] [("b", Json.num 9)]
    [("z", Json.num 3)] (some (Json.obj [("x", Json.num 1)]))
  exact ⟨(h.1 rfl).1 (by simp) (by simp), (h.1 rfl).2 (by simp), h.2 rfl rfl⟩

/-- C5 counterexample: with item 1 stored, a PATCH (or PUT) whose body is
the empty JSON object is answered with 400, not with the merged
(respectively replaced) payload the claim predicts for every JSON object
partial. -/
theorem c5_empty_partial_counterexample :
    (patch_item ⟨[(1, Json.obj [("a", Json.num 1)])], 2⟩ 1
        (some (Json.obj []))).2 = UpdResult.badRequest400 ∧
    (update_item ⟨[(1, Json.obj [("a", Json.num 1)])], 2⟩ 1
        (some (Json.obj []))).2 = UpdResult.badRequest400 :=
  ⟨rfl, rfl⟩

/-! Pagination lemmas. -/

theorem ceilDivInt_zero (limit : Int) : ceilDivInt 0 limit = 0 := by
  simp [ceilDivInt]

theorem ceilDivInt_bounds {L limit : Int} (hl : 0 < limit) :
    L ≤ ceilDivInt L limit * limit ∧ (ceilDivInt L limit - 1) * limit < L := by
  unfold ceilDivInt
  rw [Int.fdiv_eq_ediv _ (le_of_lt hl)]
  constructor
  · have h1 : (-L) / limit * limit ≤ -L :=
      (Int.le_ediv_iff_mul_le hl).mp (le_refl _)
    rw [neg_mul]
    linarith
  · have h2 : -L < ((-L) / limit + 1) * limit :=
      (Int.ediv_lt_iff_lt_mul hl).mp (lt_add_one _)
    have h3 : (-((-L) / limit) - 1) * limit = -(((-L) / limit + 1) * limit) := by
      ring
    rw [h3]
    linarith

theorem pySlice_empty_of_start_ge {α : Type} (l : List α) (a b : Int)
    (ha : (l.length : Int) ≤ a) : pySlice l a b = [] := by
  have h0 : ¬ a < 0 := by omega
  have h2 : min a.toNat l.length = l.length := by omega
  simp only [pySlice, if_neg h0, h2]
  simp

theorem pySlice_of_nonneg {α : Type} (l : List α) (a b : Int)
    (ha : 0 ≤ a) (hb : 0 ≤ b) :
    pySlice l a b = (l.drop a.toNat).take (b.toNat - a.toNat) := by
  have h0 : ¬ a < 0 := by omega
  have h1 : ¬ b < 0 := by omega
  simp only [pySlice, if_neg h0, if_neg h1]
  by_cases hal : a.toNat ≤ l.length
  · have hmin : min a.toNat l.length = a.toNat := by omega
    rw [hmin]
    by_cases hbl : b.toNat ≤ l.length
    · have hminb : min b.toNat l.length = b.toNat := by omega
      rw [hminb]
    · have hminb : min b.toNat l.length = l.length := by omega
      rw [hminb]
      have hlen : (l.drop a.toNat).length = l.length - a.toNat :=
        List.length_drop _ _
      rw [List.take_of_length_le (by omega), List.take_of_length_le (by omega)]
  · have hmin : min a.toNat l.length = l.length := by omega
    rw [hmin]
    have h2 : l.drop a.toNat = [] := List.drop_eq_nil_of_le (by omega)
    have h3 : l.drop l.length = [] := List.drop_eq_nil_of_le (by omega)
    simp [h2, h3]

/-- C6: whenever the listing succeeds, the metadata carries the item
count, the given page and limit, and `total_pages = ceil(total / limit)`
(the code's flooring-negation form, pinned down for positive limit by the
ceiling characterisation `(tp - 1) * limit < total ≤ tp * limit`), with
`total_pages = 0` for an empty collection; `page` and `limit` default to
1 and 20 when absent; and with 45 stored items and limit 20, page 3
returns items 41-45 with `total_pages = 3` while page 4 returns an empty
list with `total_pages` still 3. -/
theorem c6_pagination_meta :
    (∀ (all : List Json) (page limit : Int) (d : List Json) (m : PageMeta),
      paginate all page limit = ListResult.ok d m →
      m.total_items = all.length ∧
      m.per_page = limit ∧
      m.current_page = page ∧
      m.total_pages = ceilDivInt all.length limit ∧
      (all.length = 0 → m.total_pages = 0) ∧
      (0 < limit →
        (all.length : Int) ≤ m.total_pages * limit ∧
        (m.total_pages - 1) * limit < (all.length : Int))) ∧
    (∀ c : Collection, get_items c none none = get_items_core c 1 20) ∧
    get_items_core c45 3 20 = ListResult.ok page3 ⟨45, 20, 3, 3⟩ ∧
    get_items_core c45 4 20 = ListResult.ok [] ⟨45, 20, 4, 3⟩ := by
  refine ⟨?_, fun c => rfl, by rfl, by rfl⟩
  intro all page limit d m h
  have hne : ¬ limit = 0 := by
    intro h0
    simp [paginate, h0] at h
  simp only [paginate, if_neg hne, ListResult.ok.injEq] at h
  rcases h with ⟨hd, hm⟩
  subst hm
  refine ⟨rfl, rfl, rfl, rfl, ?_, ?_⟩
  · intro h0
    simp [h0, ceilDivInt_zero]
  · intro hl
    exact ceilDivInt_bounds hl

/-- C6 witness: a one-item listing with the default limit. -/
theorem c6_pagination_meta_witness :
    (PageMeta.mk 1 20 1 1).total_items = [Json.null].length ∧
    (PageMeta.mk 1 20 1 1).per_page = 20 ∧
    (PageMeta.mk 1 20 1 1).current_page = 1 ∧
    (PageMeta.mk 1 20 1 1).total_pages = ceilDivInt [Json.null].length 20 ∧
    ([Json.null].length = 0 → (PageMeta.mk 1 20 1 1).total_pages = 0) ∧
    (0 < (20 : Int) →
      (([Json.null].length : Int) ≤ (PageMeta.mk 1 20 1 1).total_pages * 20 ∧
      ((PageMeta.mk 1 20 1 1).total_pages - 1) * 20 < ([Json.null].length : Int))) :=
  c6_pagination_meta.1 [Json.null] 1 20 [Json.null] ⟨1, 20, 1, 1⟩ rfl

/-- C7 (amended): for every item list, page and positive limit the
listing succeeds and returns the Python slice `all[start:end]` with
`start = (page - 1) * limit` and `end = start + limit`; a start at or
beyond the list length yields an empty page, and a non-negative start
yields exactly the `limit`-sized window from index `start`; a negative
start is interpreted with Python's from-the-end offset (clamped at 0) and
can yield a non-empty page (see the counterexample), but never an
error. -/
theorem c7_slice_bounds :
    ∀ (all : List Json) (page limit : Int), 0 < limit →
    ∃ d m, paginate all page limit = ListResult.ok d m ∧
      d = pySlice all ((page - 1) * limit) ((page - 1) * limit + limit) ∧
      ((all.length : Int) ≤ (page - 1) * limit → d = []) ∧
      (0 ≤ (page - 1) * limit →
        d = (all.drop ((page - 1) * limit).toNat).take limit.toNat) := by
  intro all page limit hl
  have hne : ¬ limit = 0 := by omega
  refine ⟨pySlice all ((page - 1) * limit) ((page - 1) * limit + limit),
    ⟨all.length, limit, page, ceilDivInt all.length limit⟩,
    by simp [paginate, hne], rfl, ?_, ?_⟩
  · intro hge
    exact pySlice_empty_of_start_ge _ _ _ hge
  · intro h0
    rw [pySlice_of_nonneg _ _ _ h0 (by omega)]
    congr 1
    omega

/-- C7 witness: a two-item list sliced at page 2 with limit 1. -/
theorem c7_slice_bounds_witness :
    ∃ d m,
      paginate [Json.obj [("a", Json.num 1)], Json.obj [("a", Json.num 2)]] 2 1
        = ListResult.ok d m ∧
      d = pySlice [Json.obj [("a", Json.num 1)], Json.obj [("a", Json.num 2)]]
            ((2 - 1) * 1) ((2 - 1) * 1 + 1) ∧
      ((([Json.obj [("a", Json.num 1)], Json.obj [("a", Json.num 2)]].length : Int)
          ≤ (2 - 1) * 1) → d = []) ∧
      ((0 : Int) ≤ (2 - 1) * 1 →
        d = ([Json.obj [("a", Json.num 1)],
              Json.obj [("a", Json.num 2)]].drop (((2 : Int) - 1) * 1).toNat).take
              (1 : Int).toNat) :=
  c7_slice_bounds [Json.obj [("a", Json.num 1)], Json.obj [("a", Json.num 2)]] 2 1
    (by decide)

/-- C7 counterexample: with two stored items, page -1 and limit 1 give
`start = -2 < 0`, and the returned page is the first item, not the empty
list the claim promises for every negative start. -/
theorem c7_negative_start_counterexample :
    paginate [Json.obj [("a", Json.num 1)], Json.obj [("a", Json.num 2)]] (-1) 1
      = ListResult.ok [Json.obj [("a", Json.num 1)]] ⟨2, 1, -1, 2⟩ := rfl

/-- C8 (amended): for every negative integer limit the pagination engine
raises no failure (it returns a page and metadata), but for limit = 0 the
`total_pages` computation divides by zero and the listing fails with an
unhandled ZeroDivisionError. -/
theorem c8_limit_nonpositive :
    ∀ (all : List Json) (page limit1 limit2 : Int),
    (limit1 < 0 → ∃ d m, paginate all page limit1 = ListResult.ok d m) ∧
    (limit2 = 0 → paginate all page limit2 = ListResult.zeroDivCrash) := by
  intro all page limit1 limit2
  constructor
  · intro h
    have hne : ¬ limit1 = 0 := by omega
    exact ⟨pySlice all ((page - 1) * limit1) ((page - 1) * limit1 + limit1),
      ⟨all.length, limit1, page, ceilDivInt all.length limit1⟩,
      by simp [paginate, hne]⟩
  · intro h
    simp [paginate, h]

/-- C8 witness: limit -5 produces a page, limit 0 crashes. -/
theorem c8_limit_nonpositive_witness :
    ((-5 : Int) < 0 → ∃ d m, paginate [Json.null] 1 (-5) = ListResult.ok d m) ∧
    ((0 : Int) = 0 → paginate [Json.null] 1 0 = ListResult.zeroDivCrash) :=
  c8_limit_nonpositive [Json.null] 1 (-5) 0

/-- C8 counterexample: a listing with limit 0 (an integer limit that is
at most 0) produces the division-by-zero failure, contradicting the claim
that no failure is raised for limit at most 0. -/
theorem c8_zero_limit_counterexample :
    paginate [] 1 0 = ListResult.zeroDivCrash := rfl

/-- C9 (amended): an `error` query parameter that parses as an integer
aborts the request with exactly that status and the phrase from the
items.py table, whose entries are 400, 401, 403, 404, 422, 500, 502, 503
and 504 — 410 and 415 are absent and, like all unknown codes, get the
generic "Unknown Error" phrase; a non-empty parameter that is neither
`timeout` nor an integer aborts with the 400 invalid-parameter outcome
(an empty parameter is ignored, see the counterexample); and whenever the
simulator aborts, the guarded handler never runs, so the store is
untouched. -/
theorem c9_error_param :
    ∀ (s : String) (code : Int) (st : Store) (name : String) (b : Option Json),
    (pyParseInt s = some code →
      simulate_error (some s)
        = SimResult.httpError code
            (toString code ++ " " ++ ((error_messages code).getD "Unknown Error"))) ∧
    (error_messages 400 = some "Bad Request" ∧
     error_messages 401 = some "Unauthorized" ∧
     error_messages 403 = some "Forbidden" ∧
     error_messages 404 = some "Not Found" ∧
     error_messages 422 = some "Unprocessable Entity" ∧
     error_messages 500 = some "Internal Server Error" ∧
     error_messages 502 = some "Bad Gateway" ∧
     error_messages 503 = some "Service Unavailable" ∧
     error_messages 504 = some "Gateway Timeout" ∧
     error_messages 410 = none ∧
     error_messages 415 = none) ∧
    (s ≠ "" → s ≠ "timeout" → pyParseInt s = none →
      simulate_error (some s)
        = SimResult.invalid400
            "Invalid \x27error\x27 parameter. Must be an integer or \x27timeout\x27.") ∧
    (simulate_error (some s) ≠ SimResult.proceed →
      (create_with_sim (some s) st name b).1 = st) := by
  intro s code st name b
  refine ⟨?_, ⟨rfl, rfl, rfl, rfl, rfl, rfl, rfl, rfl, rfl, rfl, rfl⟩, ?_, ?_⟩
  · intro hp
    have he : pyParseInt "" = none := by decide
    have ht : pyParseInt "timeout" = none := by decide
    have hs1 : ¬ s = "" := by
      intro h0
      rw [h0, he] at hp
      exact Option.noConfusion hp
    have hs2 : ¬ s = "timeout" := by
      intro h0
      rw [h0, ht] at hp
      exact Option.noConfusion hp
    simp [simulate_error, hs1, hs2, hp]
  · intro h1 h2 h3
    simp [simulate_error, h1, h2, h3]
  · intro hne
    cases hsim : simulate_error (some s) with
    | proceed => exact absurd hsim hne
    | sleepTimeout t d => simp [create_with_sim, hsim]
    | httpError c2 d => simp [create_with_sim, hsim]
    | invalid400 d => simp [create_with_sim, hsim]

/-- C9 witness: `error=404` aborts with status 404 and phrase from the
table, and the guarded create endpoint leaves the store untouched. -/
theorem c9_error_param_witness :
    simulate_error (some "404") = SimResult.httpError 404 "404 Not Found" ∧
    (create_with_sim (some "404") [] "w" none).1 = ([] : Store) :=
  ⟨(c9_error_param "404" 404 [] "w" none).1 (by decide),
   (c9_error_param "404" 404 [] "w" none).2.2.2 (by decide)⟩

/-- C9 counterexample: the claim's table includes 410 (Gone) and 415
(Unsupported Media Type), but `error=410` gets the generic phrase — the
items.py table has no 410 entry — and the claim's `error` parameter that
is neither `timeout` nor an integer should give 400, yet the empty-string
parameter is simply ignored. -/
theorem c9_error_param_counterexample :
    simulate_error (some "410") = SimResult.httpError 410 "410 Unknown Error" ∧
    simulate_error (some "") = SimResult.proceed :=
  ⟨by decide, rfl⟩

/-- C3 (spec-modelled): for any request body object carrying
`description = "timeout"` and a nested `control` object with integer
`timeout` t (keys unique as in any parsed JSON object), the write
preprocessor removes `control` from the body, suspends t time units and
aborts with the 504 outcome carrying the elapsed duration; both the
create and the replace pipeline return that outcome with the store — and
hence the target collection — completely untouched. -/
theorem c3_timeout_directive :
    ∀ (st : Store) (name : String) (id : Nat)
      (bkvs ckvs : List (String × Json)) (t : Int),
    (bkvs.map Prod.fst).Nodup →
    lookupA bkvs "description" = some (Json.str "timeout") →
    lookupA bkvs "control" = some (Json.obj ckvs) →
    lookupA ckvs "timeout" = some (Json.num t) →
    preprocess_write (some (Json.obj bkvs))
      = PreResult.abortTimeout t (Json.obj (delA bkvs "control")) ∧
    lookupA (delA bkvs "control") "control" = none ∧
    create_with_pre st name (some (Json.obj bkvs))
      = (st, PreReqResult.gatewayTimeout504 t) ∧
    replace_with_pre st name id (some (Json.obj bkvs))
      = (st, PreReqResult.gatewayTimeout504 t) := by
  intro st name id bkvs ckvs t hnd h1 h2 h3
  have hd : timeout_directive (Json.obj bkvs) = DirectiveResult.sleep504 t := by
    simp [timeout_directive, h1, h2, h3]
  have hp : preprocess_write (some (Json.obj bkvs))
      = PreResult.abortTimeout t (Json.obj (delA bkvs "control")) := by
    simp [preprocess_write, hd]
  exact ⟨hp, lookupA_delA_self_of_nodup hnd "control",
    by simp [create_with_pre, hp], by simp [replace_with_pre, hp]⟩

/-- C3 witness: the spec's concrete example body blocks 2 time units,
aborts with 504, strips `control`, and creates nothing. -/
theorem c3_timeout_directive_witness :
    preprocess_write (some (Json.obj
        [("description", Json.str "timeout"),
         ("control", Json.obj [("timeout", Json.num 2)])]))
      = PreResult.abortTimeout 2 (Json.obj [("description", Json.str "timeout")]) ∧
    lookupA (delA
        [("description", Json.str "timeout"),
         ("control", Json.obj [("timeout", Json.num 2)])] "control") "control"
      = none ∧
    create_with_pre [] "widgets" (some (Json.obj
        [("description", Json.str "timeout"),
         ("control", Json.obj [("timeout", Json.num 2)])]))
      = ([], PreReqResult.gatewayTimeout504 2) ∧
    replace_with_pre [] "widgets" 1 (some (Json.obj
        [("description", Json.str "timeout"),
         ("control", Json.obj [("timeout", Json.num 2)])]))
      = ([], PreReqResult.gatewayTimeout504 2) :=
  c3_timeout_directive [] "widgets" 1
    [("description", Json.str "timeout"),
     ("control", Json.obj [("timeout", Json.num 2)])]
    [("timeout", Json.num 2)] 2 (by decide) rfl rfl rfl

/-- C10: the read operations are frame-preserving — listing collection
names never touches the store, and listing items or getting one item
leaves the store unchanged when the collection exists; when it does not,
their only effect is to append a fresh empty collection (empty items,
next_id = 1) under the requested name, leaving every other name's binding
unchanged. -/
theorem c10_reads_frame :
    ∀ (s : Store) (name name2 : String) (c : Collection)
      (pA lA : Option String) (id : Nat),
    (list_resources s).1 = s ∧
    (lookupA s name = some c →
      (getItemsReq s name pA lA).1 = s ∧ (getItemReq s name id).1 = s) ∧
    (lookupA s name2 = none →
      (getItemsReq s name2 pA lA).1 = s ++ [(name2, emptyCollection)] ∧
      (getItemReq s name2 id).1 = s ++ [(name2, emptyCollection)] ∧
      emptyCollection.items = [] ∧ emptyCollection.next_id = 1 ∧
      lookupA (s ++ [(name2, emptyCollection)]) name2 = some emptyCollection ∧
      (∀ other, other ≠ name2 →
        lookupA (s ++ [(name2, emptyCollection)]) other = lookupA s other)) := by
  intro s name name2 c pA lA id
  refine ⟨rfl, ?_, ?_⟩
  · intro h
    exact ⟨by simp [getItemsReq, get_resource, h],
      by simp [getItemReq, get_resource, h]⟩
  · intro h
    exact ⟨by simp [getItemsReq, get_resource, h],
      by simp [getItemReq, get_resource, h], rfl, rfl,
      lookupA_append_single_self _ h,
      fun other ho => lookupA_append_single_ne _ _ _ _ ho⟩

/-- C10 witness: reads on an existing collection leave the store alone;
reads on an unknown name register exactly one fresh empty collection. -/
theorem c10_reads_frame_witness :
    (list_resources [("w", emptyCollection)]).1 = [("w", emptyCollection)] ∧
    ((getItemsReq [("w", emptyCollection)] "w" none none).1
        = [("w", emptyCollection)] ∧
     (getItemReq [("w", emptyCollection)] "w" 1).1 = [("w", emptyCollection)]) ∧
    ((getItemsReq [("w", emptyCollection)] "x" none none).1
        = [("w", emptyCollection)] ++ [("x", emptyCollection)] ∧
     (getItemReq [("w", emptyCollection)] "x" 1).1
        = [("w", emptyCollection)] ++ [("x", emptyCollection)] ∧
     emptyCollection.items = [] ∧ emptyCollection.next_id = 1 ∧
     lookupA ([("w", emptyCollection)] ++ [("x", emptyCollection)]) "x"
        = some emptyCollection ∧
     (∀ other, other ≠ "x" →
       lookupA ([("w", emptyCollection)] ++ [("x", emptyCollection)]) other
         = lookupA [("w", emptyCollection)] other)) := by
  have h := c10_reads_frame [("w", emptyCollection)] "w" "x" emptyCollection
    none none 1
  exact ⟨h.1, h.2.1 rfl, h.2.2 rfl⟩

end ApiModel
